import Mathlib

/-!
Verification of the Raspberry Pi vibration measurement system
(`state_machine.py`, `leds.py`, `main.py`, `config.py`) as a shallow
embedding in Lean 4.

Modelling conventions:
* Wall-clock instants (Python `time.time()` floats) are modelled as
  rationals; all comparisons in the source are order comparisons, so
  the rational model is faithful to the control flow.
* Stateful Python objects become Lean structures, and their mutating
  methods become pure functions from the old state (plus the outcomes
  of external effects, passed as explicit parameters) to the new state.
* `print` logging is modelled by an explicit list of log events
  returned alongside the new state.
* A Python method that can observe an exception from the outside world
  (file write, USB copy, sensor read) takes the outcome of that effect
  as a `Bool` / `Option` parameter.
-/

/-- `State` enum from `state_machine.py`: `IDLE` and `MEASURING`. -/
inductive State where
  | IDLE : State
  | MEASURING : State
deriving DecidableEq, Repr

/-- `StateMachine.toggle_measurement`: if the state is `IDLE` move to
`MEASURING`, otherwise move to `IDLE` (`state_machine.py` lines 19-27). -/
def toggle_measurement : State → State
  | State.IDLE => State.MEASURING
  | State.MEASURING => State.IDLE

/-- `StateMachine.stop_measurement`: if the state is `MEASURING` move to
`IDLE`; otherwise do nothing (`state_machine.py` lines 29-33). -/
def stop_measurement : State → State
  | State.MEASURING => State.IDLE
  | s => s

/-- `StateMachine.is_measuring` (`state_machine.py` lines 35-37). -/
def is_measuring (s : State) : Bool :=
  s = State.MEASURING

/-- `MeasuringLED` from `leds.py`: blinking LED with a fixed interval and
the time of the last toggle.  The base-class field `is_on` tracks the
level; `blink_interval` and `last_blink_time` are set in `__init__`
(`last_blink_time = 0`). -/
structure MeasuringLED where
  is_on : Bool
  blink_interval : ℚ
  last_blink_time : ℚ
deriving DecidableEq, Repr

/-- `MeasuringLED.update` (`leds.py` lines 91-100): read the current time;
if at least `blink_interval` has elapsed since `last_blink_time`, toggle
the level and set `last_blink_time` to the current time; otherwise do
nothing.  `current_time` is passed explicitly. -/
def MeasuringLED.update (led : MeasuringLED) (current_time : ℚ) : MeasuringLED :=
  if led.blink_interval ≤ current_time - led.last_blink_time then
    { led with is_on := !led.is_on, last_blink_time := current_time }
  else
    led

/-- A `Reading` appended by `MeasurementSystem.read_vibration`
(`main.py`): timestamp string, three acceleration components and an
optional distance.  The numeric payload is irrelevant to the claims;
floats are modelled as rationals. -/
structure Reading where
  timestamp : String
  x : ℚ
  y : ℚ
  z : ℚ
  distance_mm : Option ℚ
deriving DecidableEq, Repr

/-- The three values of `CopyLED.mode` in `leds.py`:
`"off" | "blinking" | "on"`. -/
inductive CopyMode where
  | off : CopyMode
  | blinking : CopyMode
  | on : CopyMode
deriving DecidableEq, Repr

/-- `CopyLED` from `leds.py`: USB copy status LED with a mode on top of
the blink machinery. -/
structure CopyLED where
  is_on : Bool
  blink_interval : ℚ
  last_blink_time : ℚ
  mode : CopyMode
deriving DecidableEq, Repr

/-- `CopyLED.set_copying` (`leds.py`): switch mode to blinking. -/
def CopyLED.set_copying (led : CopyLED) : CopyLED :=
  { led with mode := CopyMode.blinking }

/-- `CopyLED.set_copied` (`leds.py`): switch mode to solid on and turn
the LED on. -/
def CopyLED.set_copied (led : CopyLED) : CopyLED :=
  { led with mode := CopyMode.on, is_on := true }

/-- `CopyLED.set_idle` (`leds.py`): switch mode to off and turn the LED
off. -/
def CopyLED.set_idle (led : CopyLED) : CopyLED :=
  { led with mode := CopyMode.off, is_on := false }

/-- `CopyLED.update` (`leds.py`): in blinking mode toggle when the blink
interval has elapsed (resetting the reference); in solid mode enforce
on; otherwise enforce off.  The mode itself is never changed here. -/
def CopyLED.update (led : CopyLED) (current_time : ℚ) : CopyLED :=
  match led.mode with
  | CopyMode.blinking =>
      if led.blink_interval ≤ current_time - led.last_blink_time then
        { led with is_on := !led.is_on, last_blink_time := current_time }
      else led
  | CopyMode.on => { led with is_on := true }
  | CopyMode.off => { led with is_on := false }

/-- Log lines printed by the functions of `main.py` that the claims are
about, in the order they are printed. -/
inductive Event where
  | csvNoReadings : Event
  | csvSaved : ℕ → Event
  | csvWriteFailed : Event
  | usbNoReadings : Event
  | usbCopied : Event
  | usbCopyFailed : Event
  | readingLogged : Event
  | sensorReadFailed : Event
deriving DecidableEq, Repr

/-- The mutable state of `MeasurementSystem` (`main.py` `__init__`) that
the claims are about, together with the bits of the filesystem the
export pipeline touches.  `localFile` is the contents of the file at
`csv_output_path` (`none` when no such file exists); `usbFiles` is the
list of CSV file contents written onto the USB drive. -/
structure Sys where
  state : State
  idle_led_on : Bool
  measuring_led : MeasuringLED
  usb_copy_led : CopyLED
  readings : List Reading
  last_reading_time : ℚ
  usb_present : Bool
  last_usb_mount : Option String
  last_usb_check_time : ℚ
  running : Bool
  localFile : Option (List Reading)
  usbFiles : List (List Reading)
deriving DecidableEq, Repr

/-- Result of a call of `save_readings_to_csv`: the new system state, the
Python return value (an optional count — the source returns `None` on
every path), whether an exception escapes to the caller, and the log. -/
structure SaveResult where
  sys : Sys
  retVal : Option ℕ
  raised : Bool
  log : List Event
deriving DecidableEq, Repr

/-- `MeasurementSystem.save_readings_to_csv` (`main.py`): if the store is
empty, log and return; otherwise try to write all readings to the local
CSV file, logging the count on success; any exception from the write is
caught and logged.  `writeOk` is the outcome of the file write supplied
by the outside world; `writeOk = false` models `open` raising (e.g. a
permission error), which leaves the previous file contents in place.
The function returns `None` on every path and never re-raises. -/
def save_readings_to_csv (s : Sys) (writeOk : Bool) : SaveResult :=
  if s.readings.isEmpty then
    { sys := s, retVal := none, raised := false, log := [Event.csvNoReadings] }
  else if writeOk then
    { sys := { s with localFile := some s.readings }, retVal := none,
      raised := false, log := [Event.csvSaved s.readings.length] }
  else
    { sys := s, retVal := none, raised := false, log := [Event.csvWriteFailed] }

/-- `MeasurementSystem._copy_csv_to_usb` (`main.py`): if the store is
empty, log and return without touching the indicator.  Otherwise set the
indicator to blinking, call `save_readings_to_csv` (which catches its own
write errors), then copy the local CSV file to a fresh timestamped path
on the mount.  `shutil.copy2` raises when the source file does not exist
or when the USB write fails (`copyOk = false`); that exception is caught,
logged, and the indicator reset to off.  On a successful copy the
indicator is set to solid on. -/
def copy_csv_to_usb (s : Sys) (writeOk copyOk : Bool) : Sys × List Event :=
  if s.readings.isEmpty then
    (s, [Event.usbNoReadings])
  else
    let s1 := { s with usb_copy_led := s.usb_copy_led.set_copying }
    let r := save_readings_to_csv s1 writeOk
    match r.sys.localFile, copyOk with
    | some content, true =>
        ({ r.sys with usbFiles := r.sys.usbFiles ++ [content],
                      usb_copy_led := r.sys.usb_copy_led.set_copied },
         r.log ++ [Event.usbCopied])
    | _, _ =>
        ({ r.sys with usb_copy_led := r.sys.usb_copy_led.set_idle },
         r.log ++ [Event.usbCopyFailed])

/-- `MeasurementSystem._check_usb_copy` (`main.py`): edge detection on
USB presence.  `mount` is the result of `_find_usb_mount` (`some path`
when a candidate mount directory exists).  On an absent→present edge,
latch presence, remember the mount and run the copy; on a present→absent
edge, clear presence and reset the indicator to off; otherwise do
nothing.  The returned `Bool` records whether the insertion-edge branch
(the one that invokes `_copy_csv_to_usb`) was taken. -/
def check_usb_copy (s : Sys) (mount : Option String) (writeOk copyOk : Bool) :
    Sys × Bool × List Event :=
  match mount, s.usb_present with
  | some path, false =>
      let r := copy_csv_to_usb
        { s with usb_present := true, last_usb_mount := some path }
        writeOk copyOk
      (r.1, true, r.2)
  | none, true =>
      ({ s with usb_present := false, last_usb_mount := none,
                usb_copy_led := s.usb_copy_led.set_idle }, false, [])
  | _, _ => (s, false, [])

/-- `READING_INTERVAL` from `config.py`: 1.0 second. -/
def READING_INTERVAL : ℚ := 1

/-- `MEASURING_LED_BLINK_INTERVAL` from `config.py`: 0.5 seconds. -/
def MEASURING_LED_BLINK_INTERVAL : ℚ := 1/2

/-- Modelled from the spec: `USB_CHECK_INTERVAL` is imported by `main.py`
from `config.py` but its value is absent from the `config.py` in the
repository; the spec only calls it "the USB poll interval".  No claim
depends on its value; it is fixed here at 2 seconds. -/
def USB_CHECK_INTERVAL : ℚ := 2

/-- `MeasurementSystem.read_vibration` (`main.py` lines 107-137): read
the accelerometer (and ToF sensor), build a `Reading` and append it to
the store; the whole body is wrapped in `try/except`, so when the sensor
read raises, nothing is appended and only an error is logged.  `sensor`
is the outcome of the reads: `some r` carries the reading the successful
sensor values and the current clock would produce; `none` models a read
raising. -/
def read_vibration (s : Sys) (sensor : Option Reading) : Sys × List Event :=
  match sensor with
  | some r => ({ s with readings := s.readings ++ [r] }, [Event.readingLogged])
  | none => (s, [Event.sensorReadFailed])

/-- `MeasurementSystem.on_begin_button_pressed` (`main.py` lines 88-98):
toggle the measurement state, then update the LED levels: when now
measuring, turn the idle LED off (the measuring LED is left to blink in
the main loop); when now idle, turn the measuring LED off and the idle
LED on. -/
def on_begin_button_pressed (s : Sys) : Sys :=
  let s1 := { s with state := toggle_measurement s.state }
  if is_measuring s1.state then
    { s1 with idle_led_on := false }
  else
    { s1 with measuring_led := { s1.measuring_led with is_on := false },
              idle_led_on := true }

/-- One iteration of the main loop in `MeasurementSystem.run` (`main.py`
lines 195-221), after the button polls: update the measuring LED only
while measuring, always update the copy LED, take a sensor sample when
measuring and `READING_INTERVAL` has elapsed since `last_reading_time`
(then reset that reference to now), and run the USB check when
`USB_CHECK_INTERVAL` has elapsed since `last_usb_check_time`.
`current_time` is the `time.time()` sample of this iteration; `sensor`,
`mount`, `writeOk`, `copyOk` are the outcomes of the external effects the
iteration may perform. -/
def tick (s : Sys) (current_time : ℚ) (sensor : Option Reading)
    (mount : Option String) (writeOk copyOk : Bool) : Sys × List Event :=
  let s1 :=
    if is_measuring s.state then
      { s with measuring_led := s.measuring_led.update current_time }
    else s
  let s2 := { s1 with usb_copy_led := s1.usb_copy_led.update current_time }
  let p :=
    if is_measuring s2.state ∧
        READING_INTERVAL ≤ current_time - s2.last_reading_time then
      let q := read_vibration s2 sensor
      ({ q.1 with last_reading_time := current_time }, q.2)
    else (s2, ([] : List Event))
  let u :=
    if USB_CHECK_INTERVAL ≤ current_time - p.1.last_usb_check_time then
      check_usb_copy { p.1 with last_usb_check_time := current_time }
        mount writeOk copyOk
    else (p.1, false, [])
  (u.1, p.2 ++ u.2.2)

/-- Running `_check_usb_copy` over a sequence of `_find_usb_mount`
outcomes, collecting for each poll whether the insertion-edge branch
(the export attempt) was taken. -/
def usbPollTrace (s : Sys) (ms : List (Option String)) (writeOk copyOk : Bool) :
    Sys × List Bool :=
  ms.foldl
    (fun acc m =>
      let r := check_usb_copy acc.1 m writeOk copyOk
      (r.1, acc.2 ++ [r.2.1]))
    (s, [])

/-- A sample reading used in concrete instantiations. -/
def r0 : Reading :=
  { timestamp := "2024-01-01 00:00:00", x := 1/10, y := -1/5, z := 49/5,
    distance_mm := none }

/-- A concrete system state right after `__init__`, except that one
reading has already been collected. -/
def sys0 : Sys :=
  { state := State.IDLE, idle_led_on := true,
    measuring_led := { is_on := false, blink_interval := 1/2, last_blink_time := 0 },
    usb_copy_led := { is_on := false, blink_interval := 1/5, last_blink_time := 0,
                      mode := CopyMode.off },
    readings := [r0], last_reading_time := 0, usb_present := false,
    last_usb_mount := none, last_usb_check_time := 0, running := true,
    localFile := none, usbFiles := [] }

/-- `sys0` with a stale local CSV file on disk (contents of an earlier,
now-empty export) left over from a previous run. -/
def sysStale : Sys :=
  { sys0 with localFile := some [] }

/-- `sys0` in the measuring state. -/
def sysM : Sys :=
  { sys0 with state := State.MEASURING }

/-- `sys0` with an empty readings store. -/
def sysE : Sys :=
  { sys0 with readings := [] }

/-- C1: starting from `IDLE`, a sequence of `n` calls of
`toggle_measurement` ends in `IDLE` when `n` is even and `MEASURING` when
`n` is odd (so the state alternates strictly); `toggle_measurement`
composed with itself is the identity; and `stop_measurement` from `IDLE`
is a no-op. -/
theorem toggle_alternates_and_stop_idle_noop :
    (∀ s : State, toggle_measurement (toggle_measurement s) = s) ∧
    stop_measurement State.IDLE = State.IDLE ∧
    (∀ n : ℕ, Nat.iterate toggle_measurement n State.IDLE =
      (if n % 2 = 0 then State.IDLE else State.MEASURING)) := by
  refine ⟨?_, rfl, ?_⟩
  · intro s; cases s <;> rfl
  · intro n
    induction n with
    | zero => rfl
    | succ k ih =>
        rw [Function.iterate_succ_apply', ih]
        rcases Nat.even_or_odd k with hk | hk



        · have h1 : k % 2 = 0 := Nat.even_iff.mp hk
          have h2 : (k + 1) % 2 = 1 := by omega
          simp [h1, h2, toggle_measurement]
        · have h1 : k % 2 = 1 := Nat.odd_iff.mp hk
          have h2 : (k + 1) % 2 = 0 := by omega
          simp [h1, h2, toggle_measurement]

/-- C2: per call of `MeasuringLED.update`, (a) a toggle happens only when
`blink_interval` has elapsed since `last_blink_time` and then the time
reference is reset to the current time; (b) within `blink_interval` of the
reference the call is the identity (no toggle); (c) a single call after an
arbitrarily long gap toggles exactly once and resets the reference to the
current time (no catch-up toggling); (d) hence two successive calls less
than `blink_interval` apart never toggle twice: if the first call toggled,
the second is the identity. -/
theorem measuring_led_update_blink_discipline
    (led : MeasuringLED) (t t' : ℚ) :
    ((led.update t).is_on ≠ led.is_on →
      led.blink_interval ≤ t - led.last_blink_time ∧
      (led.update t).last_blink_time = t) ∧
    (t - led.last_blink_time < led.blink_interval → led.update t = led) ∧
    (led.blink_interval ≤ t - led.last_blink_time →
      (led.update t).is_on = !led.is_on ∧ (led.update t).last_blink_time = t) ∧
    ((led.update t).is_on ≠ led.is_on → t' - t < led.blink_interval →
      (led.update t).update t' = led.update t) := by
  constructor
  · intro hne
    by_cases h : led.blink_interval ≤ t - led.last_blink_time
    · exact ⟨h, by simp [MeasuringLED.update, h]⟩
    · exfalso; apply hne; simp [MeasuringLED.update, h]
  constructor
  · intro h
    have h2 : ¬ led.blink_interval ≤ t - led.last_blink_time := not_le.mpr h
    simp [MeasuringLED.update, h2]
  constructor
  · intro h
    simp [MeasuringLED.update, h]
  · intro hne hlt
    by_cases h : led.blink_interval ≤ t - led.last_blink_time
    · have hlast : (led.update t).last_blink_time = t := by
        simp [MeasuringLED.update, h]
      have hint : (led.update t).blink_interval = led.blink_interval := by
        simp [MeasuringLED.update, h]
      have hnot : ¬ (led.update t).blink_interval ≤ t' - (led.update t).last_blink_time := by
        rw [hlast, hint]; exact not_le.mpr hlt
      generalize hg : led.update t = led1 at hnot ⊢
      simp [MeasuringLED.update, hnot]
    · exfalso; apply hne; simp [MeasuringLED.update, h]

/-- Witness for C2: a concrete LED with interval 1/2, reference 0, level
off; a call at time 5 toggles it on and resets the reference to 5, and a
second call at time 21/4 (within 1/2 of the first) is the identity. -/
theorem measuring_led_update_blink_discipline_witness :
    (MeasuringLED.update ⟨false, 1/2, 0⟩ 5).is_on = !false ∧
    (MeasuringLED.update ⟨false, 1/2, 0⟩ 5).last_blink_time = 5 ∧
    (MeasuringLED.update ⟨false, 1/2, 0⟩ 5).update (21/4) =
      MeasuringLED.update ⟨false, 1/2, 0⟩ 5 := by
  have h := measuring_led_update_blink_discipline ⟨false, 1/2, 0⟩ 5 (21/4)
  have h3 := h.2.2.1 (by norm_num)
  refine ⟨h3.1, h3.2, ?_⟩
  exact h.2.2.2 (by rw [h3.1]; simp) (by norm_num)

/-- Frame facts about `save_readings_to_csv`: it never changes the store,
the measurement state, the loop flag, the sampling reference or the USB
bookkeeping, and it never returns a value or raises. -/
theorem save_frame (s : Sys) (w : Bool) :
    (save_readings_to_csv s w).sys.readings = s.readings ∧
    (save_readings_to_csv s w).sys.state = s.state ∧
    (save_readings_to_csv s w).sys.running = s.running ∧
    (save_readings_to_csv s w).sys.last_reading_time = s.last_reading_time ∧
    (save_readings_to_csv s w).sys.usb_present = s.usb_present ∧
    (save_readings_to_csv s w).sys.usb_copy_led = s.usb_copy_led ∧
    (save_readings_to_csv s w).sys.last_usb_check_time = s.last_usb_check_time ∧
    (save_readings_to_csv s w).retVal = none ∧
    (save_readings_to_csv s w).raised = false := by
  unfold save_readings_to_csv
  split
  · exact ⟨rfl, rfl, rfl, rfl, rfl, rfl, rfl, rfl, rfl⟩
  · split
    · exact ⟨rfl, rfl, rfl, rfl, rfl, rfl, rfl, rfl, rfl⟩
    · exact ⟨rfl, rfl, rfl, rfl, rfl, rfl, rfl, rfl, rfl⟩

/-- Characterization of `_copy_csv_to_usb` as one case split: on an empty
store it only logs; otherwise the local file ends up holding the store
when the write succeeded (and is untouched when it failed), and the USB
copy succeeds exactly when the resulting local file exists and the USB
write works, setting the indicator solid — otherwise the indicator is
reset to off. -/
theorem copy_eq (s : Sys) (w c : Bool) :
    copy_csv_to_usb s w c =
      if s.readings.isEmpty then (s, [Event.usbNoReadings])
      else
        match (if w then some s.readings else s.localFile), c with
        | some content, true =>
            ({ s with localFile := if w then some s.readings else s.localFile,
                      usbFiles := s.usbFiles ++ [content],
                      usb_copy_led := s.usb_copy_led.set_copied },
             (if w then [Event.csvSaved s.readings.length]
              else [Event.csvWriteFailed]) ++ [Event.usbCopied])
        | _, _ =>
            ({ s with localFile := if w then some s.readings else s.localFile,
                      usb_copy_led := s.usb_copy_led.set_idle },
             (if w then [Event.csvSaved s.readings.length]
              else [Event.csvWriteFailed]) ++ [Event.usbCopyFailed]) := by
  by_cases he : s.readings.isEmpty
  · simp [copy_csv_to_usb, he]
  · cases w
    · cases hl : s.localFile
      · cases c <;>
          simp [copy_csv_to_usb, save_readings_to_csv, he, hl,
                CopyLED.set_copying, CopyLED.set_idle]
      · cases c <;>
          simp [copy_csv_to_usb, save_readings_to_csv, he, hl,
                CopyLED.set_copying, CopyLED.set_idle, CopyLED.set_copied]
    · cases c <;>
        simp [copy_csv_to_usb, save_readings_to_csv, he,
              CopyLED.set_copying, CopyLED.set_idle, CopyLED.set_copied]

/-- `_copy_csv_to_usb` never changes the readings store. -/
theorem copy_readings (s : Sys) (w c : Bool) :
    (copy_csv_to_usb s w c).1.readings = s.readings := by
  rw [copy_eq]
  split
  · rfl
  · split <;> rfl

/-- `_copy_csv_to_usb` never changes the measurement state. -/
theorem copy_state (s : Sys) (w c : Bool) :
    (copy_csv_to_usb s w c).1.state = s.state := by
  rw [copy_eq]
  split
  · rfl
  · split <;> rfl

/-- `_copy_csv_to_usb` never changes the loop flag. -/
theorem copy_running (s : Sys) (w c : Bool) :
    (copy_csv_to_usb s w c).1.running = s.running := by
  rw [copy_eq]
  split
  · rfl
  · split <;> rfl

/-- `_copy_csv_to_usb` never changes the sampling reference time. -/
theorem copy_last_reading_time (s : Sys) (w c : Bool) :
    (copy_csv_to_usb s w c).1.last_reading_time = s.last_reading_time := by
  rw [copy_eq]
  split
  · rfl
  · split <;> rfl

/-- `_copy_csv_to_usb` never changes the USB presence flag. -/
theorem copy_usb_present (s : Sys) (w c : Bool) :
    (copy_csv_to_usb s w c).1.usb_present = s.usb_present := by
  rw [copy_eq]
  split
  · rfl
  · split <;> rfl

/-- `_copy_csv_to_usb` never changes the USB check clock. -/
theorem copy_last_usb_check_time (s : Sys) (w c : Bool) :
    (copy_csv_to_usb s w c).1.last_usb_check_time = s.last_usb_check_time := by
  rw [copy_eq]
  split
  · rfl
  · split <;> rfl

/-- `_check_usb_copy` never changes the readings store. -/
theorem check_readings (s : Sys) (m : Option String) (w c : Bool) :
    (check_usb_copy s m w c).1.readings = s.readings := by
  unfold check_usb_copy
  split
  · exact copy_readings _ _ _
  · rfl
  · rfl

/-- `_check_usb_copy` never changes the measurement state. -/
theorem check_state (s : Sys) (m : Option String) (w c : Bool) :
    (check_usb_copy s m w c).1.state = s.state := by
  unfold check_usb_copy
  split
  · exact copy_state _ _ _
  · rfl
  · rfl

/-- `_check_usb_copy` never changes the loop flag. -/
theorem check_running (s : Sys) (m : Option String) (w c : Bool) :
    (check_usb_copy s m w c).1.running = s.running := by
  unfold check_usb_copy
  split
  · exact copy_running _ _ _
  · rfl
  · rfl

/-- `_check_usb_copy` never changes the sampling reference time. -/
theorem check_last_reading_time (s : Sys) (m : Option String) (w c : Bool) :
    (check_usb_copy s m w c).1.last_reading_time = s.last_reading_time := by
  unfold check_usb_copy
  split
  · exact copy_last_reading_time _ _ _
  · rfl
  · rfl

/-- Characterization of one main-loop iteration: the measurement state
and loop flag are untouched; a reading is appended exactly when the
system is measuring, `READING_INTERVAL` has elapsed, and the sensor read
succeeds; and the sampling reference is reset to the current time exactly
when the sampling branch runs. -/
theorem tick_fields (s : Sys) (t : ℚ) (sensor : Option Reading)
    (m : Option String) (w c : Bool) :
    (tick s t sensor m w c).1.state = s.state ∧
    (tick s t sensor m w c).1.running = s.running ∧
    (tick s t sensor m w c).1.readings =
      (if is_measuring s.state = true ∧ READING_INTERVAL ≤ t - s.last_reading_time then
        (match sensor with
          | some r => s.readings ++ [r]
          | none => s.readings)
       else s.readings) ∧
    (tick s t sensor m w c).1.last_reading_time =
      (if is_measuring s.state = true ∧ READING_INTERVAL ≤ t - s.last_reading_time then t
       else s.last_reading_time) := by
  unfold tick
  by_cases hm : is_measuring s.state = true <;>
    by_cases hd : READING_INTERVAL ≤ t - s.last_reading_time <;>
      rcases sensor with _ | r <;>
        simp only [hm, hd, read_vibration, if_true, if_false, and_true, and_false,
          true_and, false_and, if_pos, ite_true, ite_false, Bool.false_eq_true] <;>
          by_cases hu : USB_CHECK_INTERVAL ≤ t - s.last_usb_check_time <;>
            simp [hu, check_state, check_running, check_readings,
              check_last_reading_time, hm, hd]

/-- C3 counterexample: with one reading in the store, a successful write
makes `save_readings_to_csv` return `None` rather than the count `1`, and
a failed write is caught rather than raised to the caller. -/
theorem save_does_not_return_count :
    (save_readings_to_csv sys0 true).retVal = none ∧
    (none : Option ℕ) ≠ some sys0.readings.length ∧
    (save_readings_to_csv sys0 false).raised = false := by
  exact ⟨rfl, by simp, rfl⟩

/-- C3 (amended): `save_readings_to_csv` always returns `None` and never
propagates a write error to its caller; on a successful write of a
non-empty store it logs the count written, and on a failed write it
catches the exception and logs the failure. -/
theorem save_returns_none_and_swallows (s : Sys) (w : Bool) :
    (save_readings_to_csv s w).retVal = none ∧
    (save_readings_to_csv s w).raised = false ∧
    (s.readings ≠ [] → w = true →
      (save_readings_to_csv s w).log = [Event.csvSaved s.readings.length]) ∧
    (s.readings ≠ [] → w = false →
      (save_readings_to_csv s w).log = [Event.csvWriteFailed]) := by
  have h := save_frame s w
  refine ⟨h.2.2.2.2.2.2.2.1, h.2.2.2.2.2.2.2.2, ?_, ?_⟩
  · intro hne hw
    have he : ¬ s.readings.isEmpty = true := by
      simpa [List.isEmpty_iff] using hne
    simp [save_readings_to_csv, he, hw]
  · intro hne hw
    have he : ¬ s.readings.isEmpty = true := by
      simpa [List.isEmpty_iff] using hne
    subst hw
    simp [save_readings_to_csv, he]

/-- Witness for the amended C3: on the concrete one-reading store, a
successful write logs a count of 1. -/
theorem save_returns_none_and_swallows_witness :
    (save_readings_to_csv sys0 true).log = [Event.csvSaved 1] := by
  have h := (save_returns_none_and_swallows sys0 true).2.2.1 (by simp [sys0]) rfl
  rw [h]
  simp [sys0]

/-- C4: for every store contents and every outcome of the file write, the
export leaves the in-memory readings sequence unchanged — both for the
local CSV export and for the USB copy pipeline — so a second export still
sees the same store. -/
theorem export_preserves_store (s : Sys) (w w' c : Bool) :
    (save_readings_to_csv s w).sys.readings = s.readings ∧
    (save_readings_to_csv (save_readings_to_csv s w).sys w').sys.readings =
      s.readings ∧
    (copy_csv_to_usb s w c).1.readings = s.readings := by
  refine ⟨(save_frame s w).1, ?_, copy_readings s w c⟩
  rw [(save_frame _ w').1, (save_frame s w).1]

/-- C5: on the presence sequence absent, present, present, absent,
present, exactly the second and fifth polls take the insertion-edge
branch that invokes the export; a poll that observes the same presence as
the latched flag is a no-op; and a present→absent poll resets the copy
indicator to off without exporting. -/
theorem usb_presence_edge_detection (s : Sys) (path : String) (w c : Bool) :
    ((usbPollTrace sys0 [none, some "MP", some "MP", none, some "MP"]
        true true).2 = [false, true, false, false, true]) ∧
    (s.usb_present = true → check_usb_copy s (some path) w c = (s, false, [])) ∧
    (s.usb_present = false → check_usb_copy s none w c = (s, false, [])) ∧
    (s.usb_present = true →
      (check_usb_copy s none w c).1.usb_copy_led.mode = CopyMode.off ∧
      (check_usb_copy s none w c).2.1 = false ∧
      (check_usb_copy s none w c).1.usbFiles = s.usbFiles) := by
  refine ⟨rfl, ?_, ?_, ?_⟩
  · intro hp
    simp only [check_usb_copy, hp]
  · intro hp
    simp only [check_usb_copy, hp]
  · intro hp
    simp [check_usb_copy, hp, CopyLED.set_idle]

/-- Witness for C5: from a concrete latched-present state, a
present→absent poll resets the indicator to off and triggers nothing, and
a present→present poll is a no-op. -/
theorem usb_presence_edge_detection_witness :
    (check_usb_copy { sys0 with usb_present := true } none true true).1.usb_copy_led.mode
        = CopyMode.off ∧
    check_usb_copy { sys0 with usb_present := true } (some "MP") true true =
      ({ sys0 with usb_present := true }, false, []) := by
  have h := usb_presence_edge_detection { sys0 with usb_present := true } "MP" true true
  exact ⟨(h.2.2.2 rfl).1, h.2.1 rfl⟩

/-- C6 counterexample: on an insertion edge with one reading in the store,
a stale local CSV file on disk and a failing local write
(`writeOk = false`), the failure is logged but the export continues: the
stale file is copied to the USB drive and the indicator is set to solid
on, not to off as the claim requires for any failing export attempt. -/
theorem usb_copy_solid_despite_write_failure :
    (check_usb_copy sysStale (some "MP") false true).1.usb_copy_led.mode =
      CopyMode.on ∧
    CopyMode.on ≠ CopyMode.off ∧
    (check_usb_copy sysStale (some "MP") false true).2.2 =
      [Event.csvWriteFailed, Event.usbCopied] ∧
    (check_usb_copy sysStale (some "MP") false true).1.usbFiles = [[]] := by
  exact ⟨rfl, by simp, rfl, rfl⟩

/-- C6 (amended): on an insertion edge with a non-empty store, if the USB
copy step raises — because the USB write fails or because no local CSV
file exists after a failed local write — the indicator is reset to off
and the failure is logged; when the local write and the USB copy both
succeed the indicator is set to solid; presence stays latched, and no
further poll while the drive stays present re-attempts the export (no
retry until a fresh insertion edge).  A failed local write alone does not
reset the indicator: its error is caught inside the save routine and the
copy proceeds with the previously existing local file. -/
theorem usb_copy_indicator_policy (s : Sys) (path : String) (w c w' c' : Bool)
    (hpres : s.usb_present = false) (hne : s.readings ≠ []) :
    ((c = false ∨ (w = false ∧ s.localFile = none)) →
      (check_usb_copy s (some path) w c).1.usb_copy_led.mode = CopyMode.off ∧
      Event.usbCopyFailed ∈ (check_usb_copy s (some path) w c).2.2) ∧
    (w = true → c = true →
      (check_usb_copy s (some path) w c).1.usb_copy_led.mode = CopyMode.on) ∧
    (check_usb_copy s (some path) w c).1.usb_present = true ∧
    check_usb_copy (check_usb_copy s (some path) w c).1 (some path) w' c' =
      ((check_usb_copy s (some path) w c).1, false, []) := by
  have he : ¬ s.readings.isEmpty = true := by
    simpa [List.isEmpty_iff] using hne
  have hpres2 : (check_usb_copy s (some path) w c).1.usb_present = true := by
    simp only [check_usb_copy, hpres]
    rw [copy_usb_present]
  refine ⟨?_, ?_, hpres2, ?_⟩
  · intro hfail
    simp only [check_usb_copy, hpres]
    rw [copy_eq]
    rcases hfail with hc | hwl
    · subst hc
      cases hw : w <;> rcases hl : s.localFile with _ | content <;>
        simp [he, hl, CopyLED.set_idle]
    · obtain ⟨hw, hl⟩ := hwl
      subst hw
      cases c <;> simp [he, hl, CopyLED.set_idle]
  · intro hw hc
    subst hw; subst hc
    simp only [check_usb_copy, hpres]
    rw [copy_eq]
    simp [he, CopyLED.set_copied]
  · generalize hR : (check_usb_copy s (some path) w c).1 = R at hpres2 ⊢
    simp only [check_usb_copy, hpres2]

/-- Witness for the amended C6: on the concrete one-reading store with no
local file and a failing USB copy, the indicator ends off and the failure
is logged. -/
theorem usb_copy_indicator_policy_witness :
    (check_usb_copy sys0 (some "MP") true false).1.usb_copy_led.mode =
      CopyMode.off ∧
    Event.usbCopyFailed ∈ (check_usb_copy sys0 (some "MP") true false).2.2 := by
  exact (usb_copy_indicator_policy sys0 "MP" true false true true rfl
    (by simp [sys0])).1 (Or.inl rfl)

/-- C7: invariant of the main-loop iteration — a tick with the system
idle leaves the store untouched, and whenever the store changed, the
system was measuring, the sampling interval had elapsed, and exactly the
tick's reading was appended. -/
theorem sample_only_while_measuring (s : Sys) (t : ℚ) (sensor : Option Reading)
    (m : Option String) (w c : Bool) :
    (is_measuring s.state = false →
      (tick s t sensor m w c).1.readings = s.readings) ∧
    ((tick s t sensor m w c).1.readings ≠ s.readings →
      is_measuring s.state = true ∧
      READING_INTERVAL ≤ t - s.last_reading_time ∧
      ∃ r, sensor = some r ∧
        (tick s t sensor m w c).1.readings = s.readings ++ [r]) := by
  have h := (tick_fields s t sensor m w c).2.2.1
  constructor
  · intro hm
    rw [h]
    simp [hm]
  · intro hne
    rw [h] at hne ⊢
    by_cases hcond : is_measuring s.state = true ∧
        READING_INTERVAL ≤ t - s.last_reading_time
    · rcases sensor with _ | r
      · simp [hcond] at hne
      · exact ⟨hcond.1, hcond.2, r, rfl, by simp [hcond]⟩
    · simp [hcond] at hne

/-- Witness for C7: a tick from the concrete idle state appends nothing
even with a due interval and a working sensor. -/
theorem sample_only_while_measuring_witness :
    (tick sys0 5 (some r0) none true true).1.readings = sys0.readings := by
  exact (sample_only_while_measuring sys0 5 (some r0) none true true).1 rfl

/-- C8: when the sensor read raises during a due measuring tick, no
reading is appended and the loop flag is untouched, and the next due tick
whose sensor read succeeds appends its reading normally. -/
theorem sensor_failure_skips_tick (s : Sys) (t1 t2 : ℚ) (r : Reading)
    (m1 m2 : Option String) (w c : Bool)
    (hm : is_measuring s.state = true)
    (h1 : READING_INTERVAL ≤ t1 - s.last_reading_time)
    (h2 : READING_INTERVAL ≤ t2 - t1) :
    (tick s t1 none m1 w c).1.readings = s.readings ∧
    (tick s t1 none m1 w c).1.running = s.running ∧
    (tick (tick s t1 none m1 w c).1 t2 (some r) m2 w c).1.readings =
      s.readings ++ [r] := by
  have hf := tick_fields s t1 none m1 w c
  have hread : (tick s t1 none m1 w c).1.readings = s.readings := by
    rw [hf.2.2.1]; simp [hm, h1]
  have hstate : (tick s t1 none m1 w c).1.state = s.state := hf.1
  have hlrt : (tick s t1 none m1 w c).1.last_reading_time = t1 := by
    rw [hf.2.2.2]; simp [hm, h1]
  refine ⟨hread, hf.2.1, ?_⟩
  have hg := tick_fields (tick s t1 none m1 w c).1 t2 (some r) m2 w c
  rw [hg.2.2.1, hstate, hlrt, hread]
  simp [hm, h2]

/-- Witness for C8: from the concrete measuring state, a failing read at
time 1 appends nothing, and a successful read at time 2 appends the
reading. -/
theorem sensor_failure_skips_tick_witness :
    (tick sysM 1 none none true true).1.readings = sysM.readings ∧
    (tick sysM 1 none none true true).1.running = sysM.running ∧
    (tick (tick sysM 1 none none true true).1 2 (some r0) none true true).1.readings =
      sysM.readings ++ [r0] := by
  exact sensor_failure_skips_tick sysM 1 2 r0 none none true true rfl
    (by norm_num [READING_INTERVAL, sysM, sys0])
    (by norm_num [READING_INTERVAL])

/-- C9: an insertion edge with an empty store writes no file (neither the
local CSV nor any USB file) and leaves the indicator mode unchanged, yet
latches `usb_present`; while the drive stays present every further poll
is a no-op (so readings collected after the edge are not exported), and
only a removal followed by a re-insertion takes the export branch again. -/
theorem empty_store_insertion_latches (s : Sys) (path p2 : String)
    (w c w2 c2 w3 c3 : Bool) (rs : List Reading)
    (hempty : s.readings = []) (hpres : s.usb_present = false) :
    (check_usb_copy s (some path) w c).1.usb_present = true ∧
    (check_usb_copy s (some path) w c).1.usb_copy_led.mode =
      s.usb_copy_led.mode ∧
    (check_usb_copy s (some path) w c).1.localFile = s.localFile ∧
    (check_usb_copy s (some path) w c).1.usbFiles = s.usbFiles ∧
    (check_usb_copy
        { (check_usb_copy s (some path) w c).1 with readings := rs }
        (some p2) w2 c2 =
      ({ (check_usb_copy s (some path) w c).1 with readings := rs },
        false, [])) ∧
    ((check_usb_copy
        (check_usb_copy
          { (check_usb_copy s (some path) w c).1 with readings := rs }
          none w2 c2).1
        (some p2) w3 c3).2.1 = true) := by
  have he : s.readings.isEmpty = true := by simp [hempty]
  have hR : (check_usb_copy s (some path) w c).1 =
      { s with usb_present := true, last_usb_mount := some path } := by
    simp only [check_usb_copy, hpres]
    rw [copy_eq]
    simp [he]
  rw [hR]
  refine ⟨rfl, rfl, rfl, rfl, ?_, ?_⟩
  · simp [check_usb_copy]
  · simp [check_usb_copy]

/-- Witness for C9: from the concrete empty-store state, an insertion
edge latches presence and leaves the indicator mode unchanged. -/
theorem empty_store_insertion_latches_witness :
    (check_usb_copy sysE (some "MP") true true).1.usb_present = true ∧
    (check_usb_copy sysE (some "MP") true true).1.usb_copy_led.mode =
      sysE.usb_copy_led.mode ∧
    (check_usb_copy sysE (some "MP") true true).1.usbFiles = sysE.usbFiles := by
  have h := empty_store_insertion_latches sysE "MP" "MP" true true true true
    true true [r0] rfl rfl
  exact ⟨h.1, h.2.1, h.2.2.2.1⟩

/-- C10: handling a BEGIN press changes only the measurement state and
the idle/measuring LED levels; the sampling reference, the store, the USB
bookkeeping, the copy indicator, the loop flag and the files are all
untouched — hence, toggling from idle into measuring, the very next tick
already samples as soon as `READING_INTERVAL` has elapsed since the
previous sample time. -/
theorem begin_press_frame (s : Sys) (t : ℚ) (r : Reading)
    (m : Option String) (w c : Bool) :
    (on_begin_button_pressed s).last_reading_time = s.last_reading_time ∧
    (on_begin_button_pressed s).readings = s.readings ∧
    (on_begin_button_pressed s).state = toggle_measurement s.state ∧
    (on_begin_button_pressed s).usb_present = s.usb_present ∧
    (on_begin_button_pressed s).last_usb_mount = s.last_usb_mount ∧
    (on_begin_button_pressed s).last_usb_check_time = s.last_usb_check_time ∧
    (on_begin_button_pressed s).running = s.running ∧
    (on_begin_button_pressed s).localFile = s.localFile ∧
    (on_begin_button_pressed s).usbFiles = s.usbFiles ∧
    (on_begin_button_pressed s).usb_copy_led = s.usb_copy_led ∧
    (s.state = State.IDLE → READING_INTERVAL ≤ t - s.last_reading_time →
      (tick (on_begin_button_pressed s) t (some r) m w c).1.readings =
        s.readings ++ [r]) := by
  cases hstate : s.state
  · have hb : on_begin_button_pressed s =
        { s with state := State.MEASURING, idle_led_on := false } := by
      simp [on_begin_button_pressed, hstate, toggle_measurement, is_measuring]
    rw [hb]
    refine ⟨rfl, rfl, rfl, rfl, rfl, rfl, rfl, rfl, rfl, rfl, ?_⟩
    intro _ hdue
    have h := (tick_fields { s with state := State.MEASURING, idle_led_on := false }
      t (some r) m w c).2.2.1
    rw [h]
    simp [is_measuring, hdue]
  · have hb : on_begin_button_pressed s =
        { s with state := State.IDLE,
                 measuring_led := { s.measuring_led with is_on := false },
                 idle_led_on := true } := by
      simp [on_begin_button_pressed, hstate, toggle_measurement, is_measuring]
    rw [hb]
    refine ⟨rfl, rfl, rfl, rfl, rfl, rfl, rfl, rfl, rfl, rfl, ?_⟩
    intro hidle _
    simp at hidle

/-- Witness for C10: pressing BEGIN on the concrete idle state whose last
sample time is 0 and then ticking at time 1 already appends a reading. -/
theorem begin_press_frame_witness :
    (tick (on_begin_button_pressed sys0) 1 (some r0) none true true).1.readings =
      sys0.readings ++ [r0] := by
  exact (begin_press_frame sys0 1 r0 none true true).2.2.2.2.2.2.2.2.2.2 rfl
    (by norm_num [READING_INTERVAL, sys0])
